import Mathlib

/-
Shallow embedding of the authentication core of the tether repository
(backend/core/auth/service.py, backend/core/auth/dependecies.py,
backend/core/auth/routes.py, backend/db/models.py, backend/core/errors.py).

External effects (the Firebase identity provider reached over HTTP and the
MongoDB document store) are modelled as oracle values describing the outcome
of each call; each Python method becomes a total Lean function from its
oracle environment to an Except value mirroring the raise/return behaviour,
together with the observable side effects (store writes, remote creations
and deletions) the method performs.
-/

namespace Tether

/-- Error kinds, one per exception class of backend/core/errors.py that the
authentication flows can raise.  Only InvalidCredentialsException carries its
message here, because the message mapping from provider error codes
(format_firebase_error) is part of the specified behaviour; the other
messages play no role in the claims. -/
inductive Exc where
  | missingToken
  | invalidToken
  | expiredToken
  | invalidRefreshToken
  | tokenRefreshFailed
  | invalidCredentials (message : String)
  | loginFailed
  | userNotFound
  | userNotFoundInDatabase
  | usernameAlreadyExists
  | emailAlreadyExists
  | registrationFailed
  | invalidPassword
  | passwordUpdateFailed
  | emailVerificationFailed
  | accountDisabled
  | rateLimit
  deriving DecidableEq, Repr

/-- Decoded claims of a verified ID token (the dict returned by
auth.verify_id_token).  The code reads uid, email and email_verified; the
dict .get defaults of refresh_token are elided because the verifier of the
model always provides these fields. -/
structure Claims where
  uid : String
  email : String
  email_verified : Bool
  deriving DecidableEq, Repr

/-- Outcome of the firebase_admin auth.verify_id_token black box, as
distinguished by the except clauses of FirebaseAuthService.verify_token. -/
inductive FirebaseVerify where
  | ok (claims : Claims)
  | invalidIdToken
  | expiredIdToken
  | otherError
  deriving DecidableEq, Repr

/-- Embedding of FirebaseAuthService.verify_token
(src/backend/core/auth/service.py lines 231 to 254): InvalidIdTokenError
becomes InvalidTokenException, ExpiredIdTokenError becomes
ExpiredTokenException, any other exception is wrapped into
InvalidTokenException. -/
def verify_token : FirebaseVerify → Except Exc Claims
  | .ok c => .ok c
  | .invalidIdToken => .error .invalidToken
  | .expiredIdToken => .error .expiredToken
  | .otherError => .error .invalidToken

/-- Outcome of the firebase_admin auth.get_user call used by the
verification reconciler: the provider record with its email_verified flag,
a UserNotFoundError, or any other failure (network or provider error). -/
inductive ProviderGetUser where
  | found (email_verified : Bool)
  | userNotFound
  | otherError
  deriving DecidableEq, Repr

/-- Oracle environment for one call of sync_email_verification_status:
the provider lookup outcome and whether the two store operations
(Users.find_one and db_user.save) raise. -/
structure SyncEnv where
  provider : ProviderGetUser
  findFails : Bool
  saveFails : Bool
  deriving DecidableEq, Repr

/-- Result of one call of sync_email_verification_status: the returned or
raised value, the persisted local email_verified flag afterwards (none when
no local record exists), and the number of successful store writes. -/
structure SyncResult where
  out : Except Exc Bool
  store : Option Bool
  writes : Nat
  deriving Repr

/-- Embedding of FirebaseAuthService.sync_email_verification_status
(src/backend/core/auth/service.py lines 955 to 996).  The store argument is
the persisted email_verified flag of the local record for this uid (none
when the record is absent).  A provider UserNotFoundError is re-raised as
UserNotFoundException; every other exception is caught and the call returns
False; a save is performed only when the local value differs from the
authoritative one. -/
def sync_email_verification_status (env : SyncEnv) (store : Option Bool) : SyncResult :=
  match env.provider with
  | .userNotFound => ⟨.error .userNotFound, store, 0⟩
  | .otherError => ⟨.ok false, store, 0⟩
  | .found v =>
    if env.findFails then ⟨.ok false, store, 0⟩
    else
      match store with
      | none => ⟨.ok v, none, 0⟩
      | some l =>
        if l = v then ⟨.ok v, some l, 0⟩
        else if env.saveFails then ⟨.ok false, some l, 0⟩
        else ⟨.ok v, some v, 1⟩

/-- Embedding of FirebaseAuthDependency.get_current_user
(src/backend/core/auth/dependecies.py lines 38 to 80): missing credentials
raise MissingTokenException, a failed verification propagates, and the
reconciler call is wrapped in a try block whose except clause catches every
Exception and does nothing.  Returns the outcome together with the
persisted store state afterwards. -/
def get_current_user (cred : Option String) (fv : FirebaseVerify) (env : SyncEnv)
    (store : Option Bool) : Except Exc Claims × Option Bool :=
  match cred with
  | none => (.error .missingToken, store)
  | some _ =>
    match verify_token fv with
    | .error e => (.error e, store)
    | .ok claims =>
      let s := sync_email_verification_status env store
      (.ok claims, s.store)

/-- Exception classes listed in the except clause of get_optional_user:
InvalidTokenException, ExpiredTokenException, MissingTokenException. -/
def optional_user_catches : Exc → Bool
  | .invalidToken => true
  | .expiredToken => true
  | .missingToken => true
  | _ => false

/-- Embedding of FirebaseAuthDependency.get_optional_user
(src/backend/core/auth/dependecies.py lines 121 to 158): absent credentials
return None, the three listed token exceptions are caught and None is
returned, and any other exception from verification would propagate. -/
def get_optional_user (cred : Option String) (fv : FirebaseVerify) :
    Except Exc (Option Claims) :=
  match cred with
  | none => .ok none
  | some _ =>
    match verify_token fv with
    | .ok c => .ok (some c)
    | .error e => if optional_user_catches e then .ok none else .error e

/-- Response payload of login, registration and refresh (AuthResponse of
backend/core/auth/schemas.py). -/
structure AuthResponse where
  id_token : String
  refresh_token : String
  expires_in : Nat
  user_id : String
  email : String
  email_verified : Bool
  deriving DecidableEq, Repr

/-- Simple message payload (MessageResponse of backend/core/auth/schemas.py). -/
structure MessageResponse where
  message : String
  success : Bool
  deriving DecidableEq, Repr

/-- Embedding of FirebaseAuthService.format_firebase_error
(src/backend/core/auth/service.py lines 998 to 1018): the fixed lookup table
from provider error codes to user-facing strings; unmapped codes pass
through verbatim. -/
def format_firebase_error (m : String) : String :=
  if m = "EMAIL_NOT_FOUND" then "No user found with this email address"
  else if m = "INVALID_PASSWORD" then "Incorrect password"
  else if m = "USER_DISABLED" then "This account has been disabled"
  else if m = "TOO_MANY_ATTEMPTS_TRY_LATER" then "Too many failed attempts. Please try again later"
  else if m = "EMAIL_EXISTS" then "Email already registered"
  else if m = "INVALID_EMAIL" then "Invalid email address"
  else if m = "WEAK_PASSWORD" then "Password is too weak. Please use at least 6 characters"
  else m

/-- Outcome of the signInWithPassword REST call in login_user.  A success
carries the fields of the response the code reads (idToken, refreshToken,
expiresIn, localId, email); the response body may also carry a verification
flag, which login_user never reads, kept here so that independence from it
can be stated.  A non-200 response carries the provider error CODE; a
transport failure raises. -/
inductive SignInResult where
  | ok (idToken refreshTokenStr : String) (expiresIn : Nat) (localId email : String)
      (responseEmailVerified : Bool)
  | httpError (code : String)
  | networkError
  deriving DecidableEq, Repr

/-- Oracle environment for one call of login_user: the sign-in outcome,
whether the last-login bookkeeping store operations raise, whether the local
record is found by email, and the reconciler environment. -/
structure LoginEnv where
  signIn : SignInResult
  findFails : Bool
  userFound : Bool
  saveFails : Bool
  sync : SyncEnv
  deriving DecidableEq, Repr

/-- Result of one call of login_user: the returned or raised value and the
persisted local email_verified flag afterwards. -/
structure LoginResult where
  out : Except Exc AuthResponse
  store : Option Bool
  deriving Repr

/-- Exception classes the except clause of login_user re-raises unchanged:
InvalidCredentialsException, AccountDisabledException, RateLimitException. -/
def login_reraises : Exc → Bool
  | .invalidCredentials _ => true
  | .accountDisabled => true
  | .rateLimit => true
  | _ => false

/-- Embedding of FirebaseAuthService.login_user
(src/backend/core/auth/service.py lines 171 to 229).  A non-200 sign-in
response raises InvalidCredentialsException with the mapped message; after a
successful sign-in the last-login update runs (store failures there reach the
generic except clause and become LoginFailedException); the reconciler is
then called and its returned boolean becomes the email_verified field of the
response; an exception escaping the reconciler is re-raised only if listed
in login_reraises, otherwise wrapped into LoginFailedException. -/
def login_user (env : LoginEnv) (store : Option Bool) : LoginResult :=
  match env.signIn with
  | .networkError => ⟨.error .loginFailed, store⟩
  | .httpError code => ⟨.error (.invalidCredentials (format_firebase_error code)), store⟩
  | .ok idT rT exp uid email _ =>
    if env.findFails then ⟨.error .loginFailed, store⟩
    else if env.userFound && env.saveFails then ⟨.error .loginFailed, store⟩
    else
      let s := sync_email_verification_status env.sync store
      match s.out with
      | .ok v => ⟨.ok ⟨idT, rT, exp, uid, email, v⟩, s.store⟩
      | .error e =>
        if login_reraises e then ⟨.error e, s.store⟩ else ⟨.error .loginFailed, s.store⟩

/-- Registration request payload (UserRegistrationRequest of
backend/core/auth/schemas.py, after schema validation). -/
structure UserRegistrationRequest where
  email : String
  password : String
  username : String
  first_name : String
  last_name : String
  deriving DecidableEq, Repr

/-- Local user record as created by register_user (Users of
src/backend/db/models.py lines 13 to 22; the timestamps and the is_active
default are elided as no claim mentions them). -/
structure Users where
  username : String
  email : String
  password : String
  first_name : String
  lastname : String
  firebase_uid : String
  email_verified : Bool
  deriving DecidableEq, Repr

/-- Outcome of the Users.find_one uniqueness lookup in register_user. -/
inductive UsernameLookup where
  | found
  | absent
  | storeError
  deriving DecidableEq, Repr

/-- Outcome of the firebase_admin auth.create_user call in register_user. -/
inductive CreateUserResult where
  | ok (uid : String)
  | emailExists
  | otherError
  deriving DecidableEq, Repr

/-- Outcome of the custom-token exchange in register_user: the fields of the
REST response the code reads, or a failure. -/
inductive ExchangeResult where
  | ok (idToken refreshTokenStr : String) (expiresIn : Nat)
  | fail
  deriving DecidableEq, Repr

/-- Oracle environment for one call of register_user. -/
structure RegisterEnv where
  usernameLookup : UsernameLookup
  createUser : CreateUserResult
  insertOk : Bool
  customTokenOk : Bool
  exchange : ExchangeResult
  sendVerificationOk : Bool
  cleanupDeleteOk : Bool
  deriving DecidableEq, Repr

/-- Result of one call of register_user: the returned or raised value, the
remote account creation performed (its uid and the email_verified flag
passed to auth.create_user), the uids whose remote deletion was attempted as
compensation, and the local record inserted. -/
structure RegisterResult where
  out : Except Exc AuthResponse
  remoteCreated : Option (String × Bool)
  deleteCalls : List String
  inserted : Option Users
  deriving Repr

/-- Embedding of FirebaseAuthService.register_user
(src/backend/core/auth/service.py lines 91 to 169).  The username lookup
runs first; an existing username raises UsernameAlreadyExistsException with
no remote call.  auth.create_user is invoked with email_verified False; an
EmailAlreadyExistsError maps to EmailAlreadyExistsException.  The local
record is inserted with the password field set to the empty string and
email_verified False.  Any generic failure after the remote account exists
triggers a best-effort auth.delete_user (its own failure swallowed) and
raises RegistrationFailedException; the verification email step is
best-effort and never affects the outcome. -/
def register_user (req : UserRegistrationRequest) (env : RegisterEnv) : RegisterResult :=
  match env.usernameLookup with
  | .found => ⟨.error .usernameAlreadyExists, none, [], none⟩
  | .storeError => ⟨.error .registrationFailed, none, [], none⟩
  | .absent =>
    match env.createUser with
    | .emailExists => ⟨.error .emailAlreadyExists, none, [], none⟩
    | .otherError => ⟨.error .registrationFailed, none, [], none⟩
    | .ok uid =>
      let created := some (uid, false)
      if !env.insertOk then
        ⟨.error .registrationFailed, created, [uid], none⟩
      else
        let record : Users :=
          ⟨req.username, req.email, "", req.first_name, req.last_name, uid, false⟩
        if !env.customTokenOk then
          ⟨.error .registrationFailed, created, [uid], some record⟩
        else
          match env.exchange with
          | .fail => ⟨.error .registrationFailed, created, [uid], some record⟩
          | .ok idT rT exp =>
            ⟨.ok ⟨idT, rT, exp, uid, req.email, false⟩, created, [], some record⟩

/-- Outcome of the refresh-token REST endpoint in refresh_token: the fields
of the response the code reads, a non-200 response, or a transport failure. -/
inductive RefreshEndpoint where
  | ok (idToken refreshTokenStr : String) (expiresIn : Nat)
  | httpError
  | networkError
  deriving DecidableEq, Repr

/-- Embedding of FirebaseAuthService.refresh_token
(src/backend/core/auth/service.py lines 256 to 300).  A non-200 endpoint
response raises InvalidRefreshTokenException, which the except clause
re-raises unchanged; the new ID token is re-verified through verify_token
and only its decoded claims populate the session; any other exception,
including a verification failure, is wrapped into
TokenRefreshFailedException by the generic except clause. -/
def refresh_token (ep : RefreshEndpoint) (fv : FirebaseVerify) : Except Exc AuthResponse :=
  match ep with
  | .networkError => .error .tokenRefreshFailed
  | .httpError => .error .invalidRefreshToken
  | .ok idT rT exp =>
    match verify_token fv with
    | .ok claims => .ok ⟨idT, rT, exp, claims.uid, claims.email, claims.email_verified⟩
    | .error e =>
      if e = .invalidRefreshToken then .error e else .error .tokenRefreshFailed

/-- Outcome of the accounts:update REST call in the password-update service
method. -/
inductive HttpPost where
  | ok
  | httpError
  | networkError
  deriving DecidableEq, Repr

/-- Embedding of FirebaseAuthService.update_password
(src/backend/core/auth/service.py lines 391 to 428): a non-200 response or a
transport failure raises PasswordUpdateFailedException; a 200 response
returns the success message. -/
def update_password (r : HttpPost) : Except Exc MessageResponse :=
  match r with
  | .ok => .ok ⟨"Password updated successfully", true⟩
  | .httpError => .error .passwordUpdateFailed
  | .networkError => .error .passwordUpdateFailed

/-- Embedding of the update_password route handler
(src/backend/core/auth/routes.py lines 184 to 233).  The authenticated
current user has already been resolved; dbLookup is the outcome of
get_current_user_from_db (the stored email on success).  The current
password is re-verified by a full login_user call; only
InvalidPasswordException and InvalidCredentialsException from that call are
caught and rewritten to InvalidPasswordException, every other exception
propagates; on success the service update_password runs with the caller
token. -/
def update_password_route (dbLookup : Except Exc String) (loginEnv : LoginEnv)
    (store : Option Bool) (updatePost : HttpPost) : Except Exc MessageResponse :=
  match dbLookup with
  | .error e => .error e
  | .ok _email =>
    match (login_user loginEnv store).out with
    | .error e =>
      match e with
      | .invalidPassword => .error .invalidPassword
      | .invalidCredentials _ => .error .invalidPassword
      | other => .error other
    | .ok _session => update_password updatePost

/-- Helper: when the reconciler finds the provider record and neither store
operation fails, it returns exactly the authoritative provider value. -/
theorem sync_found_no_store_failure (v : Bool) (store : Option Bool) :
    (sync_email_verification_status ⟨.found v, false, false⟩ store).out = .ok v := by
  cases store with
  | none => rfl
  | some l =>
    by_cases hl : l = v
    · simp [sync_email_verification_status, hl]
    · simp [sync_email_verification_status, hl]

/-- C1 counterexample: when the provider reports the user unknown, the
reconciler does not return a boolean; it raises UserNotFoundException
(re-raised from UserNotFoundError), refuting the claim that every error
inside sync_email_verification_status is swallowed there with a boolean
returned. -/
theorem c1_counterexample :
    (sync_email_verification_status ⟨.userNotFound, false, false⟩ none).out
      = .error .userNotFound := rfl

/-- C1 (amended): every reconciler error other than the provider reporting
the user unknown is swallowed inside sync_email_verification_status, which
returns a boolean; the user-unknown case raises, but the enclosing
authenticated-request dependency get_current_user wraps the reconciler call
in a catch-all, so no reconciler error of any kind reaches its caller and
the verified claims are returned unchanged. -/
theorem c1_reconciler_error_containment (env : SyncEnv) (store : Option Bool)
    (fv : FirebaseVerify) (claims : Claims) (t : String) :
    (env.provider ≠ .userNotFound →
      ∃ b, (sync_email_verification_status env store).out = .ok b) ∧
    (verify_token fv = .ok claims →
      (get_current_user (some t) fv env store).1 = .ok claims) := by
  constructor
  · intro h
    rcases env with ⟨p, ff, sf⟩
    cases p with
    | userNotFound => exact absurd rfl h
    | otherError => exact ⟨false, rfl⟩
    | found v =>
      cases ff with
      | true => exact ⟨false, rfl⟩
      | false =>
        cases store with
        | none => exact ⟨v, rfl⟩
        | some l =>
          by_cases hl : l = v
          · exact ⟨v, by simp [sync_email_verification_status, hl]⟩
          · cases sf with
            | true => exact ⟨false, by simp [sync_email_verification_status, hl]⟩
            | false => exact ⟨v, by simp [sync_email_verification_status, hl]⟩
  · intro hv
    cases fv with
    | ok c =>
      simp [verify_token] at hv
      subst hv
      simp [get_current_user, verify_token]
    | invalidIdToken => simp [verify_token] at hv
    | expiredIdToken => simp [verify_token] at hv
    | otherError => simp [verify_token] at hv

/-- C1 witness: the containment theorem evaluated at a concrete provider
error and a concrete verified token. -/
theorem c1_reconciler_error_containment_witness :
    (∃ b, (sync_email_verification_status ⟨.otherError, false, false⟩ none).out = .ok b) ∧
    (get_current_user (some "tok") (.ok ⟨"u1", "a@b.c", false⟩)
        ⟨.otherError, false, false⟩ none).1 = .ok ⟨"u1", "a@b.c", false⟩ :=
  ⟨(c1_reconciler_error_containment ⟨.otherError, false, false⟩ none
      (.ok ⟨"u1", "a@b.c", false⟩) ⟨"u1", "a@b.c", false⟩ "tok").1 (by decide),
   (c1_reconciler_error_containment ⟨.otherError, false, false⟩ none
      (.ok ⟨"u1", "a@b.c", false⟩) ⟨"u1", "a@b.c", false⟩ "tok").2 rfl⟩

/-- C2 counterexample: with the refresh endpoint succeeding and the returned
ID token failing independent verification, the refresh workflow raises
TokenRefreshFailedException, not InvalidTokenException as claimed: the
verifier exception is caught by the generic except clause and rewrapped. -/
theorem c2_counterexample :
    refresh_token (.ok "forgedIdToken" "r1" 3600) .invalidIdToken
      = .error .tokenRefreshFailed ∧
    (Except.error Exc.tokenRefreshFailed : Except Exc AuthResponse)
      ≠ .error .invalidToken := by
  refine ⟨rfl, ?_⟩
  intro h
  exact absurd (Except.error.inj h) (by decide)

/-- C2 (amended): whenever the refresh endpoint succeeds but the returned ID
token fails independent verification through verify_token, the refresh
workflow fails with TokenRefreshFailed (the verifier exception being
rewrapped at the orchestrator boundary) and never returns a session built
from the unverified claims. -/
theorem c2_refresh_rejects_unverified_token (idT rT : String) (exp : Nat)
    (fv : FirebaseVerify) (e : Exc) (h : verify_token fv = .error e) :
    refresh_token (.ok idT rT exp) fv = .error .tokenRefreshFailed := by
  cases fv with
  | ok c => simp [verify_token] at h
  | invalidIdToken => rfl
  | expiredIdToken => rfl
  | otherError => rfl

/-- C2 witness: the amended theorem evaluated at a concrete tampered token. -/
theorem c2_refresh_rejects_unverified_token_witness :
    refresh_token (.ok "t" "r" 3600) .invalidIdToken = .error .tokenRefreshFailed :=
  c2_refresh_rejects_unverified_token "t" "r" 3600 .invalidIdToken .invalidToken rfl

/-- C3: when the remote account creation succeeds and the local insertion
then fails, register_user attempts the compensating remote delete of exactly
that account (whether or not the delete itself succeeds) and reports
RegistrationFailed to the caller. -/
theorem c3_compensating_delete (req : UserRegistrationRequest) (env : RegisterEnv)
    (uid : String) (h1 : env.usernameLookup = .absent) (h2 : env.createUser = .ok uid)
    (h3 : env.insertOk = false) :
    (register_user req env).out = .error .registrationFailed ∧
    (register_user req env).deleteCalls = [uid] := by
  simp [register_user, h1, h2, h3]

/-- C3 witness: the compensation theorem evaluated at a concrete failing
insertion, with the secondary delete itself failing. -/
theorem c3_compensating_delete_witness :
    (register_user ⟨"e@x.y", "pw1234", "joe", "J", "D"⟩
        ⟨.absent, .ok "u9", false, true, .ok "i" "r" 10, true, false⟩).out
      = .error .registrationFailed ∧
    (register_user ⟨"e@x.y", "pw1234", "joe", "J", "D"⟩
        ⟨.absent, .ok "u9", false, true, .ok "i" "r" 10, true, false⟩).deleteCalls
      = ["u9"] :=
  c3_compensating_delete _ _ "u9" rfl rfl rfl

/-- C4 counterexample: when the re-verification sign-in fails with a
transport error, login_user raises LoginFailedException, which the route
does not catch, so the caller receives LoginFailed rather than
InvalidPassword, refuting the claim for the other-sign-in-failure kind. -/
theorem c4_counterexample :
    update_password_route (.ok "a@b.c")
        ⟨.networkError, false, false, false, ⟨.found false, false, false⟩⟩ none .ok
      = .error .loginFailed ∧
    (Except.error Exc.loginFailed : Except Exc MessageResponse)
      ≠ .error .invalidPassword := by
  refine ⟨rfl, ?_⟩
  intro h
  exact absurd (Except.error.inj h) (by decide)

/-- C4 (amended): when the re-verification sign-in is rejected by the
provider (any non-200 code: wrong password, disabled account, rate limit —
all surfaced by login_user as InvalidCredentialsException), the route fails
with InvalidPassword regardless of the code; when the sign-in succeeds the
update proceeds; but an unanticipated sign-in failure (transport or store
error, raised as LoginFailedException) propagates unchanged. -/
theorem c4_password_update_reauth (dbEmail : String) (loginEnv : LoginEnv)
    (store : Option Bool) (post : HttpPost) (code : String) :
    (loginEnv.signIn = .httpError code →
      update_password_route (.ok dbEmail) loginEnv store post = .error .invalidPassword) ∧
    (∀ session, (login_user loginEnv store).out = .ok session →
      update_password_route (.ok dbEmail) loginEnv store post = update_password post) ∧
    (loginEnv.signIn = .networkError →
      update_password_route (.ok dbEmail) loginEnv store post = .error .loginFailed) := by
  refine ⟨?_, ?_, ?_⟩
  · intro h
    rcases loginEnv with ⟨si, ff, uf, sf, senv⟩
    simp only at h
    subst h
    simp [update_password_route, login_user]
  · intro session hs
    simp [update_password_route, hs]
  · intro h
    rcases loginEnv with ⟨si, ff, uf, sf, senv⟩
    simp only at h
    subst h
    simp [update_password_route, login_user]

/-- C4 witness: the amended theorem evaluated at a rejected sign-in with the
USER_DISABLED code, at a successful sign-in, and at a transport failure. -/
theorem c4_password_update_reauth_witness :
    update_password_route (.ok "a@b.c")
        ⟨.httpError "USER_DISABLED", false, false, false, ⟨.found false, false, false⟩⟩
        none .ok
      = .error .invalidPassword ∧
    update_password_route (.ok "a@b.c")
        ⟨.ok "i" "r" 5 "u" "a@b.c" false, false, false, false, ⟨.found false, false, false⟩⟩
        none .ok
      = update_password .ok ∧
    update_password_route (.ok "a@b.c")
        ⟨.networkError, false, false, false, ⟨.found false, false, false⟩⟩ none .ok
      = .error .loginFailed :=
  ⟨(c4_password_update_reauth "a@b.c"
      ⟨.httpError "USER_DISABLED", false, false, false, ⟨.found false, false, false⟩⟩
      none .ok "USER_DISABLED").1 rfl,
   (c4_password_update_reauth "a@b.c"
      ⟨.ok "i" "r" 5 "u" "a@b.c" false, false, false, false, ⟨.found false, false, false⟩⟩
      none .ok "X").2.1 ⟨"i", "r", 5, "u", "a@b.c", false⟩ rfl,
   (c4_password_update_reauth "a@b.c"
      ⟨.networkError, false, false, false, ⟨.found false, false, false⟩⟩
      none .ok "X").2.2 rfl⟩

/-- C5: when the username already exists in the local store, register_user
fails with UsernameAlreadyExists and performs no remote side effect: no
remote account is created and no remote delete happens in that execution. -/
theorem c5_username_check_before_remote (req : UserRegistrationRequest)
    (env : RegisterEnv) (h : env.usernameLookup = .found) :
    (register_user req env).out = .error .usernameAlreadyExists ∧
    (register_user req env).remoteCreated = none ∧
    (register_user req env).deleteCalls = [] := by
  simp [register_user, h]

/-- C5 witness: the theorem evaluated at a concrete duplicate username. -/
theorem c5_username_check_before_remote_witness :
    (register_user ⟨"e@x.y", "pw1234", "joe", "J", "D"⟩
        ⟨.found, .ok "u9", true, true, .ok "i" "r" 10, true, true⟩).out
      = .error .usernameAlreadyExists ∧
    (register_user ⟨"e@x.y", "pw1234", "joe", "J", "D"⟩
        ⟨.found, .ok "u9", true, true, .ok "i" "r" 10, true, true⟩).remoteCreated = none ∧
    (register_user ⟨"e@x.y", "pw1234", "joe", "J", "D"⟩
        ⟨.found, .ok "u9", true, true, .ok "i" "r" 10, true, true⟩).deleteCalls = [] :=
  c5_username_check_before_remote _ _ rfl

/-- C6 counterexample: a login can succeed while the reconciler, having
fetched the authoritative value true from the provider, hits an internal
store failure and returns false; the session then carries
email_verified false, not the fetched authoritative value true. -/
theorem c6_counterexample :
    (login_user ⟨.ok "i" "r" 5 "u" "a@b.c" true, false, false, false,
        ⟨.found true, true, false⟩⟩ none).out
      = .ok ⟨"i", "r", 5, "u", "a@b.c", false⟩ ∧
    (⟨.found true, true, false⟩ : SyncEnv).provider = .found true := ⟨rfl, rfl⟩

/-- C6 (amended): on every successful login the email_verified field of the
session equals the boolean returned by the reconciler (never the value the
sign-in response carries); this boolean equals the authoritative provider
value whenever the reconciler finds the provider record and its own store
interaction does not fail, but degrades to false on an internal reconciler
error. -/
theorem c6_login_email_verified_is_reconciler_value (env : LoginEnv)
    (store : Option Bool) (resp : AuthResponse)
    (h : (login_user env store).out = .ok resp) :
    (sync_email_verification_status env.sync store).out = .ok resp.email_verified ∧
    (∀ v, env.sync = ⟨.found v, false, false⟩ → resp.email_verified = v) := by
  rcases env with ⟨si, ff, uf, sf, senv⟩
  cases si with
  | networkError => simp [login_user] at h
  | httpError code => simp [login_user] at h
  | ok idT rT exp uid email rv =>
    cases ff with
    | true => simp [login_user] at h
    | false =>
      cases huf : uf && sf with
      | true => simp [login_user, huf] at h
      | false =>
        cases hs : (sync_email_verification_status senv store).out with
        | error e =>
          cases hre : login_reraises e <;> simp [login_user, huf, hs, hre] at h
        | ok v =>
          have hout : (login_user ⟨.ok idT rT exp uid email rv, false, uf, sf, senv⟩
              store).out = .ok ⟨idT, rT, exp, uid, email, v⟩ := by
            simp [login_user, huf, hs]
          rw [hout] at h
          have h2 : (⟨idT, rT, exp, uid, email, v⟩ : AuthResponse) = resp :=
            Except.ok.inj h
          subst h2
          refine ⟨rfl, ?_⟩
          intro v0 hsync
          have hs2 : senv = ⟨.found v0, false, false⟩ := hsync
          subst hs2
          have hfv := sync_found_no_store_failure v0 store
          rw [hfv] at hs
          exact (Except.ok.inj hs).symm

/-- C6 witness: the amended theorem evaluated at a concrete healthy login. -/
theorem c6_login_email_verified_is_reconciler_value_witness :
    (sync_email_verification_status ⟨.found true, false, false⟩ (some false)).out
      = .ok true ∧
    (∀ v, (⟨.found true, false, false⟩ : SyncEnv) = ⟨.found v, false, false⟩ →
      (true : Bool) = v) :=
  c6_login_email_verified_is_reconciler_value
    ⟨.ok "i" "r" 5 "u" "a@b.c" false, false, true, false, ⟨.found true, false, false⟩⟩
    (some false) ⟨"i", "r", 5, "u", "a@b.c", true⟩ rfl

/-- C7: every successful registration returns a session with email_verified
false, creates the remote account with the verified flag false, and inserts
the local record with email_verified false, whatever the oracle environment. -/
theorem c7_registration_never_preverified (req : UserRegistrationRequest)
    (env : RegisterEnv) (resp : AuthResponse)
    (h : (register_user req env).out = .ok resp) :
    resp.email_verified = false ∧
    (∃ uid, (register_user req env).remoteCreated = some (uid, false)) ∧
    (∃ rec, (register_user req env).inserted = some rec ∧ rec.email_verified = false) := by
  rcases env with ⟨ul, cu, ins, ct, ex, sv, cd⟩
  cases ul with
  | found => simp [register_user] at h
  | storeError => simp [register_user] at h
  | absent =>
    cases cu with
    | emailExists => simp [register_user] at h
    | otherError => simp [register_user] at h
    | ok uid =>
      cases ins with
      | false => simp [register_user] at h
      | true =>
        cases ct with
        | false => simp [register_user] at h
        | true =>
          cases ex with
          | fail => simp [register_user] at h
          | ok idT rT exp =>
            have h2 : (⟨idT, rT, exp, uid, req.email, false⟩ : AuthResponse) = resp :=
              Except.ok.inj h
            subst h2
            exact ⟨rfl, ⟨uid, rfl⟩, ⟨⟨req.username, req.email, "", req.first_name,
              req.last_name, uid, false⟩, rfl, rfl⟩⟩

/-- C7 witness: the theorem evaluated at a concrete successful registration. -/
theorem c7_registration_never_preverified_witness :
    (⟨"i", "r", 10, "u9", "e@x.y", false⟩ : AuthResponse).email_verified = false ∧
    (∃ uid, (register_user ⟨"e@x.y", "pw1234", "joe", "J", "D"⟩
        ⟨.absent, .ok "u9", true, true, .ok "i" "r" 10, true, true⟩).remoteCreated
      = some (uid, false)) ∧
    (∃ rec, (register_user ⟨"e@x.y", "pw1234", "joe", "J", "D"⟩
        ⟨.absent, .ok "u9", true, true, .ok "i" "r" 10, true, true⟩).inserted
      = some rec ∧ rec.email_verified = false) :=
  c7_registration_never_preverified ⟨"e@x.y", "pw1234", "joe", "J", "D"⟩
    ⟨.absent, .ok "u9", true, true, .ok "i" "r" 10, true, true⟩
    ⟨"i", "r", 10, "u9", "e@x.y", false⟩ rfl

/-- C8: running the reconciler twice in a row against an unchanged oracle
environment yields the same outcome both times and performs at most one
successful store write in total: the second call finds the local value
already equal to the authoritative one and writes nothing. -/
theorem c8_reconcile_idempotent (env : SyncEnv) (store : Option Bool) :
    (sync_email_verification_status env store).out
      = (sync_email_verification_status env
          (sync_email_verification_status env store).store).out ∧
    (sync_email_verification_status env store).writes
      + (sync_email_verification_status env
          (sync_email_verification_status env store).store).writes ≤ 1 := by
  rcases env with ⟨p, ff, sf⟩
  cases p with
  | userNotFound => exact ⟨rfl, Nat.zero_le 1⟩
  | otherError => exact ⟨rfl, Nat.zero_le 1⟩
  | found v =>
    cases ff with
    | true => exact ⟨rfl, Nat.zero_le 1⟩
    | false =>
      cases store with
      | none => exact ⟨rfl, Nat.zero_le 1⟩
      | some l =>
        cases l <;> cases v <;> cases sf <;> exact ⟨rfl, by decide⟩

/-- C9: the optional-authentication dependency never raises: absent
credentials yield None, a token failing verification (invalid or expired)
yields None, and exactly a successfully verified token yields its claims. -/
theorem c9_optional_user (t : String) (fv : FirebaseVerify) :
    (get_optional_user none fv = .ok none) ∧
    ((∃ e, verify_token fv = .error e) → get_optional_user (some t) fv = .ok none) ∧
    (∀ c, verify_token fv = .ok c → get_optional_user (some t) fv = .ok (some c)) ∧
    (∃ o, get_optional_user (some t) fv = .ok o) := by
  refine ⟨rfl, ?_, ?_, ?_⟩
  · rintro ⟨e, he⟩
    cases fv with
    | ok c => simp [verify_token] at he
    | invalidIdToken => rfl
    | expiredIdToken => rfl
    | otherError => rfl
  · intro c hc
    cases fv with
    | ok c2 =>
      simp [verify_token] at hc
      subst hc
      rfl
    | invalidIdToken => simp [verify_token] at hc
    | expiredIdToken => simp [verify_token] at hc
    | otherError => simp [verify_token] at hc
  · cases fv with
    | ok c => exact ⟨some c, rfl⟩
    | invalidIdToken => exact ⟨none, rfl⟩
    | expiredIdToken => exact ⟨none, rfl⟩
    | otherError => exact ⟨none, rfl⟩

/-- C9 witness: the theorem evaluated at a concrete expired token and at a
concrete verified token. -/
theorem c9_optional_user_witness :
    get_optional_user (some "tok") .expiredIdToken = .ok none ∧
    get_optional_user (some "tok") (.ok ⟨"u1", "a@b.c", true⟩)
      = .ok (some ⟨"u1", "a@b.c", true⟩) :=
  ⟨(c9_optional_user "tok" .expiredIdToken).2.1 ⟨.expiredToken, rfl⟩,
   (c9_optional_user "tok" (.ok ⟨"u1", "a@b.c", true⟩)).2.2.1 ⟨"u1", "a@b.c", true⟩ rfl⟩

/-- C10: every local record inserted by register_user carries the empty
string in its password field: the supplied password never reaches the local
store. -/
theorem c10_password_never_persisted (req : UserRegistrationRequest)
    (env : RegisterEnv) (rec : Users)
    (h : (register_user req env).inserted = some rec) :
    rec.password = "" := by
  rcases env with ⟨ul, cu, ins, ct, ex, sv, cd⟩
  cases ul with
  | found => simp [register_user] at h
  | storeError => simp [register_user] at h
  | absent =>
    cases cu with
    | emailExists => simp [register_user] at h
    | otherError => simp [register_user] at h
    | ok uid =>
      cases ins with
      | false => simp [register_user] at h
      | true =>
        cases ct with
        | false =>
          simp [register_user] at h
          rw [← h]
        | true =>
          cases ex with
          | fail =>
            simp [register_user] at h
            rw [← h]
          | ok idT rT exp =>
            simp [register_user] at h
            rw [← h]

/-- C10 witness: the theorem evaluated at a concrete registration whose
request carries a nonempty password. -/
theorem c10_password_never_persisted_witness :
    (⟨"joe", "e@x.y", "", "J", "D", "u9", false⟩ : Users).password = "" :=
  c10_password_never_persisted ⟨"e@x.y", "pw1234", "joe", "J", "D"⟩
    ⟨.absent, .ok "u9", true, true, .ok "i" "r" 10, true, true⟩
    ⟨"joe", "e@x.y", "", "J", "D", "u9", false⟩ rfl

end Tether
